import Mathlib

/-!
Verification of the finias skill-permissions plugin.

The development shallowly embeds the plugin's decision engine, policy
store, HTTP request handler and audit-log read path (src/index.ts; the
decision engine is byte-identical in the tool-registration variant).
Strings are modelled through their character lists (`String.data`);
JavaScript `String.prototype.includes` becomes list-infix containment,
and the anchored regex replace of the identity normalizer becomes an
explicit prefix test on the three channel prefixes, in the regex's
alternation order.
-/

namespace SkillPermissions

/-- JSON values, used for request bodies and HTTP response bodies. -/
inductive Json where
  | null : Json
  | bool (b : Bool) : Json
  | num (n : Int) : Json
  | str (s : String) : Json
  | arr (elems : List Json) : Json
  | obj (fields : List (String × Json)) : Json
deriving Repr

/-- The plugin configuration (`PluginConfig` in src/index.ts).
`defaultPolicy` is declared `'allow' | 'deny'` in TypeScript, but the
PUT /api/config handler assigns into it whatever the request body holds
with no runtime validation, so it is embedded as an arbitrary string. -/
structure PluginConfig where
  port : Nat
  password : String
  defaultPolicy : String
  allowedUsers : List String
  deniedUsers : List String
  logInstallAttempts : Bool
deriving Repr, DecidableEq

/-- JavaScript `haystack.includes(needle)`: `needle` occurs contiguously
inside `haystack`. -/
def strIncludes (haystack needle : String) : Bool :=
  decide (needle.data <:+: haystack.data)

/-- `userId.replace(/^(whatsapp:|telegram:|discord:)/, '')`: strip one
leading channel prefix if present (anchored, case-sensitive, single
replacement), else return the string unchanged. -/
def normalizeId (userId : String) : String :=
  if ("whatsapp:".data).isPrefixOf userId.data then String.mk (userId.data.drop 9)
  else if ("telegram:".data).isPrefixOf userId.data then String.mk (userId.data.drop 9)
  else if ("discord:".data).isPrefixOf userId.data then String.mk (userId.data.drop 8)
  else userId

/-- The list-matching lambda `u => normalizedId.includes(u) || u.includes(normalizedId)`
used for both lists in `canInstallSkill`. -/
def matchesEntry (normalizedId u : String) : Bool :=
  strIncludes normalizedId u || strIncludes u normalizedId

/-- Result of a permission decision. -/
structure Decision where
  allowed : Bool
  reason : String
deriving Repr, DecidableEq

/-- `canInstallSkill` from src/index.ts lines 94-114 (identical in the
tool variant): normalize, check the deny list first, then the allow
list, then fall back to the default policy. -/
def canInstallSkill (config : PluginConfig) (userId : String) : Decision :=
  let normalizedId := normalizeId userId
  if config.deniedUsers.any (fun u => matchesEntry normalizedId u) then
    { allowed := false, reason := "Benutzer ist auf der Sperrliste" }
  else if config.allowedUsers.any (fun u => matchesEntry normalizedId u) then
    { allowed := true, reason := "Benutzer ist auf der Whitelist" }
  else if config.defaultPolicy == "allow" then
    { allowed := true, reason := "Standard-Richtlinie: Erlaubt" }
  else
    { allowed := false, reason := "Standard-Richtlinie: Verweigert (nur Whitelist-Benutzer)" }

/-- The hard-coded `defaultConfig` of `loadConfig` (src/index.ts lines 50-57). -/
def defaultConfig : PluginConfig :=
  { port := 18803
    password := ""
    defaultPolicy := "deny"
    allowedUsers := []
    deniedUsers := []
    logInstallAttempts := true }

/-- The shape `saveConfig` writes to permissions.json (src/index.ts lines
70-78): only the four mutable fields; `password` and `port` are omitted. -/
structure SavedConfig where
  allowedUsers : List String
  deniedUsers : List String
  defaultPolicy : String
  logInstallAttempts : Bool
deriving Repr, DecidableEq

/-- `saveConfig`: project the persisted subset out of the live config. -/
def saveConfig (config : PluginConfig) : SavedConfig :=
  { allowedUsers := config.allowedUsers
    deniedUsers := config.deniedUsers
    defaultPolicy := config.defaultPolicy
    logInstallAttempts := config.logInstallAttempts }

/-- `loadConfig`: `none` stands for a missing file or a JSON parse
failure (both fall back to `defaultConfig`); a readable file merges its
fields over the defaults (`{...defaultConfig, ...saved}`). -/
def loadConfig (file : Option SavedConfig) : PluginConfig :=
  match file with
  | none => defaultConfig
  | some saved =>
      { defaultConfig with
        allowedUsers := saved.allowedUsers
        deniedUsers := saved.deniedUsers
        defaultPolicy := saved.defaultPolicy
        logInstallAttempts := saved.logInstallAttempts }

/-- The fields a PUT /api/config body can carry, typed by the schema the
handler reads (`updates.defaultPolicy` etc.); `none` is an absent field
(`undefined`), which the handler leaves untouched. -/
structure ConfigUpdates where
  defaultPolicy? : Option String := none
  allowedUsers? : Option (List String) := none
  deniedUsers? : Option (List String) := none
  logInstallAttempts? : Option Bool := none
deriving Repr

/-- The field-by-field copy performed by the PUT /api/config handler
(src/index.ts lines 212-223): each present field overwrites the config
field, with no validation of its value. -/
def applyConfigUpdates (config : PluginConfig) (u : ConfigUpdates) : PluginConfig :=
  { config with
    defaultPolicy := u.defaultPolicy?.getD config.defaultPolicy
    allowedUsers := u.allowedUsers?.getD config.allowedUsers
    deniedUsers := u.deniedUsers?.getD config.deniedUsers
    logInstallAttempts := u.logInstallAttempts?.getD config.logInstallAttempts }

/-- POST /api/users/allow handler body (src/index.ts lines 254-260):
filter the user out of the deny list, push onto the allow list if absent. -/
def allowUser (config : PluginConfig) (userId : String) : PluginConfig :=
  { config with
    deniedUsers := config.deniedUsers.filter (fun u => u != userId)
    allowedUsers :=
      if config.allowedUsers.contains userId then config.allowedUsers
      else config.allowedUsers ++ [userId] }

/-- POST /api/users/deny handler body (src/index.ts lines 286-292). -/
def denyUser (config : PluginConfig) (userId : String) : PluginConfig :=
  { config with
    allowedUsers := config.allowedUsers.filter (fun u => u != userId)
    deniedUsers :=
      if config.deniedUsers.contains userId then config.deniedUsers
      else config.deniedUsers ++ [userId] }

/-- POST /api/users/remove handler body (src/index.ts lines 318-319). -/
def removeUser (config : PluginConfig) (userId : String) : PluginConfig :=
  { config with
    allowedUsers := config.allowedUsers.filter (fun u => u != userId)
    deniedUsers := config.deniedUsers.filter (fun u => u != userId) }

/-- The GET /api/logs read pipeline (src/index.ts lines 347-355) applied
to the raw file `content`, with the runtime's `JSON.parse` abstracted as
`parse : String → Option Json` (`none` = the parse threw):
`content.trim().split('\n').filter(nonblank).map(parse-or-null)
.filter(Boolean).reverse().slice(0, 100)`. -/
def readLogs (parse : String → Option Json) (content : String) : List Json :=
  (((((content.trim.splitOn "\n").filter
      (fun line => !line.trim.isEmpty)).filterMap parse).reverse).take 100)

/-- The same pipeline after the split into lines; used to state that a
malformed line is dropped without affecting the rest. -/
def readLogLines (parse : String → Option Json) (lines : List String) : List Json :=
  ((((lines.filter (fun line => !line.trim.isEmpty)).filterMap parse).reverse).take 100)

/-- A mutation request's body after `JSON.parse`, typed by the fields
the handlers destructure: `invalid` = the parse threw; `configBody`
carries the PUT /api/config fields; `userBody` carries the destructured
`userId` of the /api/users bodies (`none` = absent). -/
inductive RequestBody where
  | invalid : RequestBody
  | configBody (u : ConfigUpdates) : RequestBody
  | userBody (userId? : Option String) : RequestBody

/-- A parsed HTTP request. The `auth`, `userId` and `skill` query
parameters are `none` when absent (`url.searchParams.get` returns null). -/
structure Request where
  method : String
  path : String
  auth? : Option String
  userId? : Option String
  skill? : Option String
  body : RequestBody

/-- An HTTP response: status code and JSON body (`none` for the bodyless
204 preflight reply). -/
structure Response where
  status : Nat
  body? : Option Json

/-- 401 `{error: "Unauthorized"}`. -/
def unauthorizedResp : Response :=
  ⟨401, some (.obj [("error", .str "Unauthorized")])⟩

/-- 400 `{error: "Invalid JSON"}`. -/
def invalidJsonResp : Response :=
  ⟨400, some (.obj [("error", .str "Invalid JSON")])⟩

/-- 400 `{error: "userId required"}`. -/
def userIdRequiredResp : Response :=
  ⟨400, some (.obj [("error", .str "userId required")])⟩

/-- The mutable config fields as returned by GET/PUT /api/config. -/
def configJson (config : PluginConfig) : Json :=
  .obj [("defaultPolicy", .str config.defaultPolicy),
        ("allowedUsers", .arr (config.allowedUsers.map Json.str)),
        ("deniedUsers", .arr (config.deniedUsers.map Json.str)),
        ("logInstallAttempts", .bool config.logInstallAttempts)]

/-- What `JSON.parse(body)` yields to the PUT /api/config handler:
`none` on a parse throw; a body of another shape simply has all four
fields `undefined`. -/
def bodyAsUpdates : RequestBody → Option ConfigUpdates
  | .invalid => none
  | .configBody u => some u
  | .userBody _ => some {}

/-- What `const { userId } = JSON.parse(body)` yields to the /api/users
handlers: `none` on a parse throw; `some none` when the parsed object
has no `userId` field. -/
def bodyUserId : RequestBody → Option (Option String)
  | .invalid => none
  | .userBody userId? => some userId?
  | .configBody _ => some none

/-- `handleRequest` (src/index.ts lines 131-366): CORS preflight, the
public /api/check endpoint, the admin endpoints guarded by
`auth === config.password`, and the 404 fallback, in source order.
The state the handlers mutate (the module-global `config`) is passed in
and returned; `logFile` is the audit-log file's content (`none` = the
file does not exist), and `parse` abstracts the runtime's `JSON.parse`
for log lines. The audit-log append and the `saveConfig()` file write
are side effects outside the returned values. -/
def handleRequest (parse : String → Option Json) (req : Request)
    (config : PluginConfig) (logFile : Option String) : Response × PluginConfig :=
  if req.method = "OPTIONS" then
    (⟨204, none⟩, config)
  else
    -- const isAdmin = auth === config.password  (null never equals a string)
    let isAdmin : Bool := req.auth? == some config.password
    if req.path = "/api/check" ∧ req.method = "GET" then
      match req.userId? with
      | none => (⟨400, some (.obj [("error", .str "userId parameter required")])⟩, config)
      | some uid =>
        if uid = "" then
          (⟨400, some (.obj [("error", .str "userId parameter required")])⟩, config)
        else
          let skillName :=
            match req.skill? with
            | none => "unknown"
            | some s => if s = "" then "unknown" else s
          let result := canInstallSkill config uid
          (⟨200, some (.obj
            [("userId", .str uid),
             ("skill", .str skillName),
             ("allowed", .bool result.allowed),
             ("reason", .str result.reason),
             ("message", .str (if result.allowed then
                 "Installation von \"" ++ skillName ++ "\" erlaubt."
               else
                 "Installation von \"" ++ skillName ++ "\" verweigert: "
                   ++ result.reason))])⟩, config)
    else if req.path = "/api/config" ∧ req.method = "GET" then
      if !isAdmin then (unauthorizedResp, config)
      else (⟨200, some (configJson config)⟩, config)
    else if req.path = "/api/config" ∧ req.method = "PUT" then
      if !isAdmin then (unauthorizedResp, config)
      else
        match bodyAsUpdates req.body with
        | none => (invalidJsonResp, config)
        | some u =>
          let config' := applyConfigUpdates config u
          (⟨200, some (.obj [("success", .bool true),
            ("config", configJson config')])⟩, config')
    else if req.path = "/api/users/allow" ∧ req.method = "POST" then
      if !isAdmin then (unauthorizedResp, config)
      else
        match bodyUserId req.body with
        | none => (invalidJsonResp, config)
        | some none => (userIdRequiredResp, config)
        | some (some uid) =>
          if uid = "" then (userIdRequiredResp, config)
          else
            let config' := allowUser config uid
            (⟨200, some (.obj [("success", .bool true),
              ("allowedUsers", .arr (config'.allowedUsers.map Json.str))])⟩,
             config')
    else if req.path = "/api/users/deny" ∧ req.method = "POST" then
      if !isAdmin then (unauthorizedResp, config)
      else
        match bodyUserId req.body with
        | none => (invalidJsonResp, config)
        | some none => (userIdRequiredResp, config)
        | some (some uid) =>
          if uid = "" then (userIdRequiredResp, config)
          else
            let config' := denyUser config uid
            (⟨200, some (.obj [("success", .bool true),
              ("deniedUsers", .arr (config'.deniedUsers.map Json.str))])⟩,
             config')
    else if req.path = "/api/users/remove" ∧ req.method = "POST" then
      if !isAdmin then (unauthorizedResp, config)
      else
        match bodyUserId req.body with
        | none => (invalidJsonResp, config)
        | some none => (userIdRequiredResp, config)
        | some (some uid) =>
          if uid = "" then (userIdRequiredResp, config)
          else
            let config' := removeUser config uid
            (⟨200, some (.obj [("success", .bool true),
              ("allowedUsers", .arr (config'.allowedUsers.map Json.str)),
              ("deniedUsers", .arr (config'.deniedUsers.map Json.str))])⟩,
             config')
    else if req.path = "/api/logs" ∧ req.method = "GET" then
      if !isAdmin then (unauthorizedResp, config)
      else
        match logFile with
        | none => (⟨200, some (.obj [("logs", .arr [])])⟩, config)
        | some content =>
          (⟨200, some (.obj [("logs", .arr (readLogs parse content))])⟩, config)
    else
      (⟨404, some (.obj [("error", .str "Not found")])⟩, config)

/-- The six admin routes of the router (everything guarded by `isAdmin`). -/
def isAdminEndpoint (method path : String) : Bool :=
  (method == "GET" && path == "/api/config") ||
  (method == "PUT" && path == "/api/config") ||
  (method == "POST" && path == "/api/users/allow") ||
  (method == "POST" && path == "/api/users/deny") ||
  (method == "POST" && path == "/api/users/remove") ||
  (method == "GET" && path == "/api/logs")

/-- Boolean disjointness of the two user lists. -/
def listsDisjoint (xs ys : List String) : Bool :=
  xs.all (fun x => decide (x ∉ ys))

/-- The empty list is an infix of every list. -/
theorem nil_isInfix_any (l : List Char) : [] <:+: l :=
  ⟨[], l, by simp⟩

/-- `(a ++ b).data` is the concatenation of the character lists. -/
theorem string_data_append (a b : String) : (a ++ b).data = a.data ++ b.data :=
  rfl

/-- Rebuilding a string from its character list is the identity. -/
theorem string_mk_data (s : String) : String.mk s.data = s :=
  rfl

/-- C1: for every policy and raw identity whose normalized form matches an
entry of `deniedUsers` under bidirectional containment, `canInstallSkill`
returns `allowed = false` — the deny check runs first, so this holds even
when the identity also matches `allowedUsers`. -/
theorem c1_deny_precedence (config : PluginConfig) (userId : String)
    (h : ∃ u ∈ config.deniedUsers, matchesEntry (normalizeId userId) u = true) :
    (canInstallSkill config userId).allowed = false := by
  have hany : config.deniedUsers.any (fun u => matchesEntry (normalizeId userId) u) = true := by
    simpa [List.any_eq_true] using h
  simp [canInstallSkill, hany]

theorem c1_deny_precedence_witness :
    (∃ u ∈ ["alice"], matchesEntry (normalizeId "alice") u = true) ∧
    (canInstallSkill ⟨18803, "", "allow", ["alice"], ["alice"], true⟩ "alice").allowed = false :=
  ⟨by decide, c1_deny_precedence ⟨18803, "", "allow", ["alice"], ["alice"], true⟩ "alice" (by decide)⟩

/-- C5: when the normalized identity matches no entry of either list, the
decision equals the test `defaultPolicy == "allow"`: allowed exactly when
the default policy is the string `"allow"`. -/
theorem c5_default_policy_fallback (config : PluginConfig) (userId : String)
    (hd : ∀ u ∈ config.deniedUsers, matchesEntry (normalizeId userId) u = false)
    (ha : ∀ u ∈ config.allowedUsers, matchesEntry (normalizeId userId) u = false) :
    (canInstallSkill config userId).allowed = (config.defaultPolicy == "allow") := by
  have hd' : config.deniedUsers.any (fun u => matchesEntry (normalizeId userId) u) = false := by
    simp [List.any_eq_false]
    intro u hu
    simp [hd u hu]
  have ha' : config.allowedUsers.any (fun u => matchesEntry (normalizeId userId) u) = false := by
    simp [List.any_eq_false]
    intro u hu
    simp [ha u hu]
  by_cases hpol : (config.defaultPolicy == "allow") = true
  · simp [canInstallSkill, hd', ha', hpol]
  · simp at hpol
    simp [canInstallSkill, hd', ha', hpol]

theorem c5_default_policy_fallback_witness :
    (∀ u ∈ ([] : List String), matchesEntry (normalizeId "bob") u = false) ∧
    (∀ u ∈ ["alice"], matchesEntry (normalizeId "bob") u = false) ∧
    (canInstallSkill ⟨18803, "", "deny", ["alice"], [], true⟩ "bob").allowed
      = ("deny" == "allow") :=
  ⟨by decide, by decide,
    c5_default_policy_fallback ⟨18803, "", "deny", ["alice"], [], true⟩ "bob"
      (by decide) (by decide)⟩

/-- C7 counterexample: in the scenario of the claim the decision's reason
is the German allowlist string, not `"user is on the allowlist"`. -/
theorem c7_counterexample :
    (canInstallSkill ⟨18803, "", "deny", ["alice"], [], true⟩ "whatsapp:alice").reason
      ≠ "user is on the allowlist" := by
  decide

/-- C7 (amended): with Policy `{defaultPolicy: "deny", allowedUsers:
["alice"], deniedUsers: []}`, deciding `"whatsapp:alice"` yields
`allowed = true` with reason exactly the allowlist string the code uses,
`"Benutzer ist auf der Whitelist"`. -/
theorem c7_allowlist_scenario :
    canInstallSkill ⟨18803, "", "deny", ["alice"], [], true⟩ "whatsapp:alice"
      = ⟨true, "Benutzer ist auf der Whitelist"⟩ := by
  decide

/-- C4: list matching is bidirectional substring containment — an entry
matches iff the normalized identity contains it or it contains the
normalized identity; the empty string matches every entry, so an identity
that normalizes to `""` is denied whenever `deniedUsers` is non-empty. -/
theorem c4_bidirectional_matching (n u : String) (config : PluginConfig) (userId : String)
    (hempty : normalizeId userId = "") (hne : config.deniedUsers ≠ []) :
    (matchesEntry n u = true ↔ (u.data <:+: n.data ∨ n.data <:+: u.data)) ∧
    matchesEntry "" u = true ∧
    (canInstallSkill config userId).allowed = false := by
  refine ⟨by simp [matchesEntry, strIncludes], ?_, ?_⟩
  · simp [matchesEntry, strIncludes]
  · have h0 : ∀ e ∈ config.deniedUsers, matchesEntry (normalizeId userId) e = true := by
      intro e _
      rw [hempty]
      simp [matchesEntry, strIncludes]
    have hany : config.deniedUsers.any (fun e => matchesEntry (normalizeId userId) e) = true := by
      rcases hlist : config.deniedUsers with _ | ⟨e, rest⟩
      · exact absurd hlist hne
      · have := h0 e (by rw [hlist]; exact List.mem_cons_self e rest)
        simp [this]
    simp [canInstallSkill, hany]

theorem c4_bidirectional_matching_witness :
    (matchesEntry "ab" "b" = true ↔ ("b".data <:+: "ab".data ∨ "ab".data <:+: "b".data)) ∧
    matchesEntry "" "b" = true ∧
    (canInstallSkill ⟨18803, "", "allow", [], ["blocked"], true⟩ "whatsapp:").allowed = false :=
  c4_bidirectional_matching "ab" "b" ⟨18803, "", "allow", [], ["blocked"], true⟩ "whatsapp:"
    (by decide) (by decide)

/-- Two character-list prefixes with distinct heads exclude each other. -/
theorem char_prefix_head {a b : Char} {as bs : List Char}
    (h : (a :: as) <+: (b :: bs)) : a = b := by
  obtain ⟨t, ht⟩ := h
  rw [List.cons_append] at ht
  injection ht with h1 h2

theorem wa_prefix_self (l : List Char) :
    ("whatsapp:".data).isPrefixOf ("whatsapp:".data ++ l) = true := by
  rw [ List.isPrefixOf_iff_prefix]
  exact List.prefix_append _ _

theorem te_prefix_self (l : List Char) :
    ("telegram:".data).isPrefixOf ("telegram:".data ++ l) = true := by
  rw [ List.isPrefixOf_iff_prefix]
  exact List.prefix_append _ _

theorem di_prefix_self (l : List Char) :
    ("discord:".data).isPrefixOf ("discord:".data ++ l) = true := by
  rw [ List.isPrefixOf_iff_prefix]
  exact List.prefix_append _ _

theorem wa_not_prefix_te (l : List Char) :
    ("whatsapp:".data).isPrefixOf ("telegram:".data ++ l) = false := by
  rw [Bool.eq_false_iff]
  intro h
  rw [ List.isPrefixOf_iff_prefix] at h
  have h2 : ('w' :: "hatsapp:".data) <+: ('t' :: ("elegram:".data ++ l)) := h
  exact absurd (char_prefix_head h2) (by decide)

theorem wa_not_prefix_di (l : List Char) :
    ("whatsapp:".data).isPrefixOf ("discord:".data ++ l) = false := by
  rw [Bool.eq_false_iff]
  intro h
  rw [ List.isPrefixOf_iff_prefix] at h
  have h2 : ('w' :: "hatsapp:".data) <+: ('d' :: ("iscord:".data ++ l)) := h
  exact absurd (char_prefix_head h2) (by decide)

theorem te_not_prefix_di (l : List Char) :
    ("telegram:".data).isPrefixOf ("discord:".data ++ l) = false := by
  rw [Bool.eq_false_iff]
  intro h
  rw [ List.isPrefixOf_iff_prefix] at h
  have h2 : ('t' :: "elegram:".data) <+: ('d' :: ("iscord:".data ++ l)) := h
  exact absurd (char_prefix_head h2) (by decide)

theorem drop_wa (l : List Char) : ("whatsapp:".data ++ l).drop 9 = l :=
  List.drop_left' (by rfl)

theorem drop_te (l : List Char) : ("telegram:".data ++ l).drop 9 = l :=
  List.drop_left' (by rfl)

theorem drop_di (l : List Char) : ("discord:".data ++ l).drop 8 = l :=
  List.drop_left' (by rfl)

theorem normalize_strip_wa (r : String) : normalizeId ("whatsapp:" ++ r) = r := by
  have hd : ("whatsapp:" ++ r).data = "whatsapp:".data ++ r.data := rfl
  simp [normalizeId, hd, wa_prefix_self, drop_wa]

theorem normalize_strip_te (r : String) : normalizeId ("telegram:" ++ r) = r := by
  have hd : ("telegram:" ++ r).data = "telegram:".data ++ r.data := rfl
  simp [normalizeId, hd, wa_not_prefix_te, te_prefix_self, drop_te]

theorem normalize_strip_di (r : String) : normalizeId ("discord:" ++ r) = r := by
  have hd : ("discord:" ++ r).data = "discord:".data ++ r.data := rfl
  simp [normalizeId, hd, wa_not_prefix_di, te_not_prefix_di, di_prefix_self, drop_di]

/-- C6: normalization strips exactly one leading prefix from
`{"whatsapp:", "telegram:", "discord:"}` when one is present at position
0, is the identity on every string starting with none of them, never
fails, and maps `""` to `""`. -/
theorem c6_normalization (r s : String)
    (h1 : ("whatsapp:".data).isPrefixOf s.data = false)
    (h2 : ("telegram:".data).isPrefixOf s.data = false)
    (h3 : ("discord:".data).isPrefixOf s.data = false) :
    normalizeId ("whatsapp:" ++ r) = r ∧
    normalizeId ("telegram:" ++ r) = r ∧
    normalizeId ("discord:" ++ r) = r ∧
    normalizeId s = s ∧
    normalizeId "" = "" := by
  refine ⟨normalize_strip_wa r, normalize_strip_te r, normalize_strip_di r, ?_, rfl⟩
  simp [normalizeId, h1, h2, h3]

theorem c6_normalization_witness :
    normalizeId ("whatsapp:" ++ "whatsapp:x") = "whatsapp:x" ∧
    normalizeId ("telegram:" ++ "whatsapp:x") = "whatsapp:x" ∧
    normalizeId ("discord:" ++ "whatsapp:x") = "whatsapp:x" ∧
    normalizeId "WHATSAPP:alice" = "WHATSAPP:alice" ∧
    normalizeId "" = "" :=
  c6_normalization "whatsapp:x" "WHATSAPP:alice" (by decide) (by decide) (by decide)

/-- C8: `saveConfig` followed by `loadConfig` reproduces the four mutable
fields of the live config (round-trip law), and the persisted shape is
oblivious to `password` and `port`: two configs differing only in those
fields persist identically. -/
theorem c8_persist_roundtrip (c c₁ c₂ : PluginConfig)
    (h1 : c₁.allowedUsers = c₂.allowedUsers)
    (h2 : c₁.deniedUsers = c₂.deniedUsers)
    (h3 : c₁.defaultPolicy = c₂.defaultPolicy)
    (h4 : c₁.logInstallAttempts = c₂.logInstallAttempts) :
    (loadConfig (some (saveConfig c))).allowedUsers = c.allowedUsers ∧
    (loadConfig (some (saveConfig c))).deniedUsers = c.deniedUsers ∧
    (loadConfig (some (saveConfig c))).defaultPolicy = c.defaultPolicy ∧
    (loadConfig (some (saveConfig c))).logInstallAttempts = c.logInstallAttempts ∧
    saveConfig c₁ = saveConfig c₂ := by
  refine ⟨rfl, rfl, rfl, rfl, ?_⟩
  simp [saveConfig, h1, h2, h3, h4]

theorem c8_persist_roundtrip_witness :
    (loadConfig (some (saveConfig ⟨9999, "secret", "allow", ["a"], ["b"], false⟩))).allowedUsers
        = ["a"] ∧
    (loadConfig (some (saveConfig ⟨9999, "secret", "allow", ["a"], ["b"], false⟩))).deniedUsers
        = ["b"] ∧
    (loadConfig (some (saveConfig ⟨9999, "secret", "allow", ["a"], ["b"], false⟩))).defaultPolicy
        = "allow" ∧
    (loadConfig (some (saveConfig ⟨9999, "secret", "allow", ["a"], ["b"], false⟩))).logInstallAttempts
        = false ∧
    saveConfig ⟨1, "secretOne", "allow", ["a"], ["b"], false⟩
      = saveConfig ⟨2, "secretTwo", "allow", ["a"], ["b"], false⟩ :=
  c8_persist_roundtrip ⟨9999, "secret", "allow", ["a"], ["b"], false⟩
    ⟨1, "secretOne", "allow", ["a"], ["b"], false⟩
    ⟨2, "secretTwo", "allow", ["a"], ["b"], false⟩
    rfl rfl rfl rfl

/-- C9: for every audit-log file content, the GET /api/logs read pipeline
returns at most 100 records; it equals the reverse of the newest
`min 100 n` parsed records (the cap is applied after reversal, so the
retained records are the newest, in newest-first order); and a line the
parser rejects is dropped without affecting the rest of the result. -/
theorem c9_log_read (parse : String → Option Json) (content : String)
    (pre post : List String) (bad : String) (hbad : parse bad = none) :
    (readLogs parse content).length ≤ 100 ∧
    readLogs parse content
      = (((content.trim.splitOn "\n").filter (fun line => !line.trim.isEmpty)).filterMap parse
          |> fun parsed => (parsed.drop (parsed.length - 100)).reverse) ∧
    readLogLines parse (pre ++ bad :: post) = readLogLines parse (pre ++ post) := by
  refine ⟨?_, ?_, ?_⟩
  · simp [readLogs]
  · simp only [readLogs]
    exact List.take_reverse
  · simp only [readLogLines, List.filter_append, List.filter_cons]
    by_cases hb : (!bad.trim.isEmpty) = true
    · simp [hb, List.filterMap_append, hbad]
    · simp [hb]

theorem c9_log_read_witness :
    (readLogs (fun l => if l = "v" then some (Json.str "v") else none)
        "v\nx\nv").length ≤ 100 ∧
    readLogs (fun l => if l = "v" then some (Json.str "v") else none) "v\nx\nv"
      = ((("v\nx\nv".trim.splitOn "\n").filter (fun line => !line.trim.isEmpty)).filterMap
          (fun l => if l = "v" then some (Json.str "v") else none)
          |> fun parsed => (parsed.drop (parsed.length - 100)).reverse) ∧
    readLogLines (fun l => if l = "v" then some (Json.str "v") else none) (["v"] ++ "x" :: ["v"])
      = readLogLines (fun l => if l = "v" then some (Json.str "v") else none) (["v"] ++ ["v"]) :=
  c9_log_read (fun l => if l = "v" then some (Json.str "v") else none) "v\nx\nv"
    ["v"] ["v"] "x" (by simp)

theorem disjoint_allowUser (c : PluginConfig) (uid : String)
    (h : listsDisjoint c.allowedUsers c.deniedUsers = true) :
    listsDisjoint (allowUser c uid).allowedUsers (allowUser c uid).deniedUsers = true := by
  simp only [listsDisjoint, List.all_eq_true, decide_eq_true_eq] at h ⊢
  intro x hx hmem
  simp only [allowUser] at hx hmem
  rw [List.mem_filter] at hmem
  obtain ⟨hxd, hxne⟩ := hmem
  have hxne' : x ≠ uid := by simpa using hxne
  by_cases hc : c.allowedUsers.contains uid = true
  · simp only [hc, if_true] at hx
    exact h x hx hxd
  · simp only [hc, if_false, Bool.false_eq_true] at hx
    rcases List.mem_append.mp hx with hx' | hx'
    · exact h x hx' hxd
    · simp at hx'
      exact hxne' hx'

theorem disjoint_denyUser (c : PluginConfig) (uid : String)
    (h : listsDisjoint c.allowedUsers c.deniedUsers = true) :
    listsDisjoint (denyUser c uid).allowedUsers (denyUser c uid).deniedUsers = true := by
  simp only [listsDisjoint, List.all_eq_true, decide_eq_true_eq] at h ⊢
  intro x hx hmem
  simp only [denyUser] at hx hmem
  rw [List.mem_filter] at hx
  obtain ⟨hxa, hxne⟩ := hx
  have hxne' : x ≠ uid := by simpa using hxne
  by_cases hc : c.deniedUsers.contains uid = true
  · simp only [hc, if_true] at hmem
    exact h x hxa hmem
  · simp only [hc, if_false, Bool.false_eq_true] at hmem
    rcases List.mem_append.mp hmem with hm' | hm'
    · exact h x hxa hm'
    · simp at hm'
      exact hxne' hm'

theorem disjoint_removeUser (c : PluginConfig) (uid : String)
    (h : listsDisjoint c.allowedUsers c.deniedUsers = true) :
    listsDisjoint (removeUser c uid).allowedUsers (removeUser c uid).deniedUsers = true := by
  simp only [listsDisjoint, List.all_eq_true, decide_eq_true_eq] at h ⊢
  intro x hx hmem
  simp only [removeUser] at hx hmem
  rw [List.mem_filter] at hx hmem
  exact h x hx.1 hmem.1

/-- C2 counterexample: starting from the (disjoint) default config, an
authorized PUT /api/config whose body holds `"mallory"` in both lists
leaves the two lists sharing an element — this handler copies the lists
verbatim and does not maintain disjointness. -/
theorem c2_counterexample :
    listsDisjoint defaultConfig.allowedUsers defaultConfig.deniedUsers = true ∧
    listsDisjoint
      ((handleRequest (fun _ => none)
        ⟨"PUT", "/api/config", some "", none, none,
          .configBody { allowedUsers? := some ["mallory"], deniedUsers? := some ["mallory"] }⟩
        defaultConfig none).2).allowedUsers
      ((handleRequest (fun _ => none)
        ⟨"PUT", "/api/config", some "", none, none,
          .configBody { allowedUsers? := some ["mallory"], deniedUsers? := some ["mallory"] }⟩
        defaultConfig none).2).deniedUsers = false :=
  ⟨rfl, rfl⟩

/-- C2 (amended): the three /api/users mutations preserve disjointness of
`allowedUsers` and `deniedUsers` (adding to one removes from the other);
PUT /api/config does not — it installs the request body's lists verbatim. -/
theorem c2_amended_user_mutations (parse : String → Option Json) (req : Request)
    (c : PluginConfig) (lf : Option String)
    (hm : req.method = "POST")
    (hp : req.path = "/api/users/allow" ∨ req.path = "/api/users/deny" ∨
          req.path = "/api/users/remove")
    (h : listsDisjoint c.allowedUsers c.deniedUsers = true) :
    listsDisjoint (handleRequest parse req c lf).2.allowedUsers
      (handleRequest parse req c lf).2.deniedUsers = true := by
  rcases hp with hp | hp | hp <;>
    simp [handleRequest, hm, hp] <;>
    (repeat' split) <;>
    first
      | exact h
      | exact disjoint_allowUser _ _ h
      | exact disjoint_denyUser _ _ h
      | exact disjoint_removeUser _ _ h

theorem c2_amended_user_mutations_witness :
    listsDisjoint
      (handleRequest (fun _ => none)
        ⟨"POST", "/api/users/allow", some "", none, none, .userBody (some "eve")⟩
        ⟨18803, "", "deny", ["alice"], ["eve"], true⟩ none).2.allowedUsers
      (handleRequest (fun _ => none)
        ⟨"POST", "/api/users/allow", some "", none, none, .userBody (some "eve")⟩
        ⟨18803, "", "deny", ["alice"], ["eve"], true⟩ none).2.deniedUsers = true :=
  c2_amended_user_mutations (fun _ => none)
    ⟨"POST", "/api/users/allow", some "", none, none, .userBody (some "eve")⟩
    ⟨18803, "", "deny", ["alice"], ["eve"], true⟩ none
    rfl (Or.inl rfl) (by decide)

theorem handle_admin_unauth (parse : String → Option Json) (req : Request)
    (c : PluginConfig) (lf : Option String)
    (hendp : isAdminEndpoint req.method req.path = true)
    (ha : req.auth? ≠ some c.password) :
    handleRequest parse req c lf = (unauthorizedResp, c) := by
  have hAdm : (req.auth? == some c.password) = false := beq_eq_false_iff_ne.mpr ha
  simp only [isAdminEndpoint, Bool.or_eq_true, Bool.and_eq_true, beq_iff_eq,
    or_assoc] at hendp
  rcases hendp with ⟨hm, hp⟩ | ⟨hm, hp⟩ | ⟨hm, hp⟩ | ⟨hm, hp⟩ | ⟨hm, hp⟩ | ⟨hm, hp⟩ <;>
    simp [handleRequest, hm, hp, hAdm]

theorem handle_admin_auth_not_401 (parse : String → Option Json) (req : Request)
    (c : PluginConfig) (lf : Option String)
    (hendp : isAdminEndpoint req.method req.path = true)
    (ha : req.auth? = some c.password) :
    (handleRequest parse req c lf).1.status ≠ 401 := by
  have hAdm : (req.auth? == some c.password) = true := by simp [ha]
  simp only [isAdminEndpoint, Bool.or_eq_true, Bool.and_eq_true, beq_iff_eq,
    or_assoc] at hendp
  rcases hendp with ⟨hm, hp⟩ | ⟨hm, hp⟩ | ⟨hm, hp⟩ | ⟨hm, hp⟩ | ⟨hm, hp⟩ | ⟨hm, hp⟩ <;>
    simp [handleRequest, hm, hp, hAdm] <;>
    (repeat' split) <;>
    simp [unauthorizedResp, invalidJsonResp, userIdRequiredResp]

/-- C3: on each of the six admin routes the request is treated as admin
exactly when its `auth` query parameter string-equals the configured
secret; otherwise the response is 401 `{error: "Unauthorized"}` and the
config is unchanged. With an empty configured secret, `auth=` (the empty
value) is admin while an absent `auth` parameter is rejected. -/
theorem c3_admin_auth (parse : String → Option Json) (req : Request) (c : PluginConfig)
    (lf : Option String) (hendp : isAdminEndpoint req.method req.path = true) :
    (req.auth? ≠ some c.password → handleRequest parse req c lf = (unauthorizedResp, c)) ∧
    (req.auth? = some c.password → (handleRequest parse req c lf).1.status ≠ 401) ∧
    (c.password = "" → req.auth? = some "" → (handleRequest parse req c lf).1.status ≠ 401) ∧
    (c.password = "" → req.auth? = none → handleRequest parse req c lf = (unauthorizedResp, c)) :=
  ⟨fun ha => handle_admin_unauth parse req c lf hendp ha,
   fun ha => handle_admin_auth_not_401 parse req c lf hendp ha,
   fun hpw ha => handle_admin_auth_not_401 parse req c lf hendp (by rw [ha, hpw]),
   fun _ ha => handle_admin_unauth parse req c lf hendp (by simp [ha])⟩

theorem c3_admin_auth_witness :
    handleRequest (fun _ => none)
        ⟨"GET", "/api/config", some "wrong", none, none, .userBody none⟩
        ⟨18803, "secret", "deny", [], [], true⟩ none
      = (unauthorizedResp, ⟨18803, "secret", "deny", [], [], true⟩) ∧
    (handleRequest (fun _ => none)
        ⟨"GET", "/api/config", some "secret", none, none, .userBody none⟩
        ⟨18803, "secret", "deny", [], [], true⟩ none).1.status ≠ 401 ∧
    (handleRequest (fun _ => none)
        ⟨"GET", "/api/logs", some "", none, none, .userBody none⟩
        defaultConfig none).1.status ≠ 401 ∧
    handleRequest (fun _ => none)
        ⟨"GET", "/api/logs", none, none, none, .userBody none⟩
        defaultConfig none
      = (unauthorizedResp, defaultConfig) :=
  ⟨(c3_admin_auth (fun _ => none)
      ⟨"GET", "/api/config", some "wrong", none, none, .userBody none⟩
      ⟨18803, "secret", "deny", [], [], true⟩ none (by decide)).1 (by simp),
   (c3_admin_auth (fun _ => none)
      ⟨"GET", "/api/config", some "secret", none, none, .userBody none⟩
      ⟨18803, "secret", "deny", [], [], true⟩ none (by decide)).2.1 rfl,
   (c3_admin_auth (fun _ => none)
      ⟨"GET", "/api/logs", some "", none, none, .userBody none⟩
      defaultConfig none (by decide)).2.2.1 rfl rfl,
   (c3_admin_auth (fun _ => none)
      ⟨"GET", "/api/logs", none, none, none, .userBody none⟩
      defaultConfig none (by decide)).2.2.2 rfl rfl⟩

/-- C10: an authorized PUT /api/config copies each present body field
into the config verbatim (no validation of its value), so `defaultPolicy`
can become any string; and for identities matching neither list,
`canInstallSkill` takes the deny branch for every default policy other
than the exact string `"allow"`. -/
theorem c10_config_update_unvalidated (parse : String → Option Json) (c : PluginConfig)
    (u : ConfigUpdates) (lf : Option String) (userId : String)
    (hd : ∀ e ∈ (applyConfigUpdates c u).deniedUsers,
      matchesEntry (normalizeId userId) e = false)
    (ha : ∀ e ∈ (applyConfigUpdates c u).allowedUsers,
      matchesEntry (normalizeId userId) e = false)
    (hpol : (applyConfigUpdates c u).defaultPolicy ≠ "allow") :
    (handleRequest parse
        ⟨"PUT", "/api/config", some c.password, none, none, .configBody u⟩ c lf).2
      = applyConfigUpdates c u ∧
    (applyConfigUpdates c u).defaultPolicy = u.defaultPolicy?.getD c.defaultPolicy ∧
    (canInstallSkill (applyConfigUpdates c u) userId).allowed = false := by
  refine ⟨?_, rfl, ?_⟩
  · simp [handleRequest, bodyAsUpdates]
  · have hd' : (applyConfigUpdates c u).deniedUsers.any
        (fun e => matchesEntry (normalizeId userId) e) = false := by
      simp [List.any_eq_false]
      intro e he
      simp [hd e he]
    have ha' : (applyConfigUpdates c u).allowedUsers.any
        (fun e => matchesEntry (normalizeId userId) e) = false := by
      simp [List.any_eq_false]
      intro e he
      simp [ha e he]
    have hpol' : ((applyConfigUpdates c u).defaultPolicy == "allow") = false :=
      beq_eq_false_iff_ne.mpr hpol
    simp [canInstallSkill, hd', ha', hpol']

theorem c10_config_update_unvalidated_witness :
    (handleRequest (fun _ => none)
        ⟨"PUT", "/api/config", some defaultConfig.password, none, none,
          .configBody { defaultPolicy? := some "banana" }⟩ defaultConfig none).2
      = applyConfigUpdates defaultConfig { defaultPolicy? := some "banana" } ∧
    (applyConfigUpdates defaultConfig { defaultPolicy? := some "banana" }).defaultPolicy
      = ({ defaultPolicy? := some "banana" } : ConfigUpdates).defaultPolicy?.getD
          defaultConfig.defaultPolicy ∧
    (canInstallSkill
        (applyConfigUpdates defaultConfig { defaultPolicy? := some "banana" })
        "bob").allowed = false :=
  c10_config_update_unvalidated (fun _ => none) defaultConfig
    { defaultPolicy? := some "banana" } none "bob" (by decide) (by decide) (by decide)

end SkillPermissions
